import Mathlib

/-!
Shallow embedding of `generate_summaries.py` (Boston.com Speed Read news
summary generator) and proofs about its content-extraction, summarization,
classification, feed-pipeline and persistence logic.

External effects (HTTP fetches, the model completion call, the file system
and the clock) are modelled as explicit inputs: a fetched page is an
abstract `Soup`, a model call is a function from the prompt to an optional
response text (`none` = the call raised), and file reads are a `ReadResult`.
Python strings are Lean `String`s; character-level operations (strip, lower,
slicing, substring test) are defined on `String.toList` so that they compute
by kernel reduction, mirroring Python's code-point semantics.
-/

namespace SpeedRead

/-- Python `s.strip()` on a list of characters: drop whitespace from both ends. -/
def stripChars (l : List Char) : List Char :=
  ((l.dropWhile Char.isWhitespace).reverse.dropWhile Char.isWhitespace).reverse

/-- Python `s.strip()`. -/
def pyStrip (s : String) : String := String.mk (stripChars s.toList)

/-- Python `s.lower()` (ASCII case folding; every keyword in the source is ASCII). -/
def pyLower (s : String) : String := String.mk (s.toList.map Char.toLower)

/-- Python `s[:n]`: the first `n` characters (code points) of `s`. -/
def pySlice (s : String) (n : Nat) : String := String.mk (s.toList.take n)

/-- Substring test on character lists: `needle` occurs contiguously in `hay`. -/
def listContainsSub (needle hay : List Char) : Bool :=
  hay.tails.any (fun t => needle.isPrefixOf t)

/-- Python `needle in hay` for strings. -/
def pyIn (needle hay : String) : Bool := listContainsSub needle.toList hay.toList

/-- Python `'\n'`-splitting, accumulator for `pySplitLines`. -/
def splitLinesAux : List Char → List Char → List String
  | [], acc => [String.mk acc.reverse]
  | c :: cs, acc =>
    if c = '\n' then String.mk acc.reverse :: splitLinesAux cs []
    else splitLinesAux cs (c :: acc)

/-- Python `s.split('\n')`. -/
def pySplitLines (s : String) : List String := splitLinesAux s.toList []

/-- Python `' '.join(parts)`. -/
def joinSpace : List String → String
  | [] => ""
  | [s] => s
  | s :: rest => s ++ " " ++ joinSpace rest

/-!  ContentExtractor: `BostonNewsGenerator.fetch_article_content`. -/

/-- A parsed HTML page after the unwanted elements (script, style, nav, header,
footer, aside) have been decomposed: `select_one` gives, for a CSS selector,
the `get_text(strip=True)` text of the first matching element (or `none` when
no element matches), and `paragraphs` lists the stripped text of every `<p>`
element in document order. -/
structure Soup where
  select_one : String → Option String
  paragraphs : List String

/-- The selector chain tried by `fetch_article_content`, in source order. -/
def selectors : List String := [".entry-content", ".article-body", ".post-content", "article"]

/-- The `for selector in [...]` loop: text of the first selector that matches
any element, `none` if no selector in the list matches. -/
def find_content : List String → Soup → Option String
  | [], _ => none
  | sel :: rest, soup =>
    match soup.select_one sel with
    | some t => some t
    | none => find_content rest soup

/-- The paragraph fallback: `' '.join([p.get_text(strip=True) for p in paragraphs[:10]])`. -/
def para_fallback (soup : Soup) : String := joinSpace (soup.paragraphs.take 10)

/-- The value of the Python local `content` just before the final return:
the first matching selector's text when one matched, except that a falsy
(empty) selector text, like no match at all, triggers the paragraph fallback
(`if not content:`). -/
def raw_text (soup : Soup) : String :=
  match find_content selectors soup with
  | some t => if t = "" then para_fallback soup else t
  | none => para_fallback soup

/-- The final `return content[:4000] if content else None` applied to a
successfully fetched and parsed page. -/
def extract_text (soup : Soup) : Option String :=
  if raw_text soup = "" then none else some (pySlice (raw_text soup) 4000)

/-- `fetch_article_content`: `none` on any transport or parse failure (the
surrounding `try`/`except` returns `None`), otherwise the extraction result. -/
def fetch_article_content : Option Soup → Option String
  | none => none
  | some soup => extract_text soup

/-- Modelled from the spec: the selector chain as §4.1 words it, starting with
a `content-body` class. Used only to compare the spec's claimed chain with the
source's chain (which starts with `.entry-content`). -/
def selectors_spec : List String := [".content-body", ".article-body", ".post-content", "article"]

/-- Modelled from the spec: §4.1 says the first selector that matches any
element wins and its text becomes the excerpt, the paragraph fallback running
only when no selector matches (no empty-text override). -/
def raw_text_spec (soup : Soup) : String :=
  match find_content selectors_spec soup with
  | some t => t
  | none => para_fallback soup

/-- Modelled from the spec: extraction as §4.1 describes it. -/
def extract_text_spec (soup : Soup) : Option String :=
  if raw_text_spec soup = "" then none else some (pySlice (raw_text_spec soup) 4000)

/-!  Summarizer: `BostonNewsGenerator.create_summary`. -/

/-- The recognized bullet markers, in the order the source checks them. -/
def bulletMarkers : List String := ["•", "-", "*", "1.", "2.", "3."]

/-- The inner cleanup loop: strip the first marker that the line starts with
(`clean_line[len(p):].strip()` then `break`). -/
def stripMarker : List String → String → String
  | [], l => l
  | m :: ms, l =>
    if m.toList.isPrefixOf l.toList then pyStrip (String.mk (l.toList.drop m.toList.length))
    else stripMarker ms l

/-- The bullet-parsing loop of `create_summary`: a stripped, non-empty line that
starts with one of the markers contributes its cleaned remainder, in order. -/
def parse_bullets (text : String) : List String :=
  (pySplitLines text).foldl
    (fun acc line =>
      let l := pyStrip line
      if l ≠ "" ∧ bulletMarkers.any (fun m => m.toList.isPrefixOf l.toList) then
        acc ++ [stripMarker bulletMarkers l]
      else acc)
    []

/-- The user prompt of `create_summary` (abridged to its data dependencies: the
full rubric text is a string constant around the title and the first 2000
characters of the content). -/
def build_prompt (title content : String) : String :=
  "You are creating a 3-bullet summary for a Boston news story. STORY TITLE: "
    ++ title ++ " STORY CONTENT: " ++ pySlice content 2000
    ++ " Create exactly 3 bullets. Format as three separate lines, each starting with a bullet point."

/-- The fixed fallback returned when fewer than 3 bullets were parsed. -/
def parse_fallback (title : String) : List String :=
  ["Breaking news from Boston: " ++ title,
   "Story developing with local impact",
   "Full details and context available at Boston.com"]

/-- The fixed fallback returned when the model call raised an exception. -/
def error_fallback (title : String) : List String :=
  ["Boston news update: " ++ title,
   "Local story with community impact",
   "Additional details in full article"]

/-- `create_summary`: `modelResp` maps the prompt to the model's raw response
text, `none` meaning the external call raised. The response is stripped, split
into lines, parsed into bullets; with 3 or more bullets the first 3 are
returned, otherwise the parse fallback; an exception gives the error fallback. -/
def create_summary (modelResp : String → Option String) (title content : String) : List String :=
  match modelResp (build_prompt title content) with
  | none => error_fallback title
  | some t =>
    let bullets := parse_bullets (pyStrip t)
    if 3 ≤ bullets.length then bullets.take 3 else parse_fallback title

/-!  Classifier: `BostonNewsGenerator.determine_hook_type`. -/

def sportsWords : List String := ["patriots", "celtics", "bruins", "red sox"]

def transitWords : List String := ["mbta", "orange line", "green line", "commuter rail", "traffic"]

def politicsWords : List String := ["mayor", "city council", "election", "vote"]

def weatherWords : List String := ["weather", "storm", "snow", "rain"]

def localWords : List String := ["boston", "cambridge", "somerville", "brookline"]

/-- `content.lower() if content else ""`: the content is lowercased only when
truthy (neither `None` nor empty). -/
def pyContentLower : Option String → String
  | none => ""
  | some c => if c = "" then "" else pyLower c

/-- `determine_hook_type`: fixed case-insensitive keyword rules in source
order, first match wins, defaulting to `"NEWS"`. -/
def determine_hook_type (title : String) (content : Option String) : String :=
  let title_lower := pyLower title
  let content_lower := pyContentLower content
  if sportsWords.any (fun w => pyIn w title_lower) then "SPORTS"
  else if transitWords.any (fun w => pyIn w title_lower) then "TRANSIT"
  else if politicsWords.any (fun w => pyIn w title_lower) then "POLITICS"
  else if weatherWords.any (fun w => pyIn w title_lower) then "WEATHER"
  else if localWords.any (fun w => pyIn w content_lower) then "LOCAL_IMPACT"
  else "NEWS"

/-!  FeedPipeline: `BostonNewsGenerator.fetch_and_process_feeds`. -/

/-- A feed entry as consumed by the pipeline; `published` and `summary` carry
the `entry.get(..., '')` defaults already applied. -/
structure FeedEntry where
  title : String
  link : String
  published : String
  summary : String

/-- The article record assembled per entry. -/
structure Article where
  title : String
  link : String
  pubDate : String
  summary : List String
  hookType : String
  processed_at : String

/-- The run's external world: `fetchPage` is the HTTP fetch and HTML parse of
a URL (`none` = transport or parse failure), `modelResp` is the model
completion keyed by the prompt, `now` the run's clock reading. -/
structure Env where
  fetchPage : String → Option Soup
  modelResp : String → Option String
  now : String

/-- The per-entry body of the feed loop: extract content (falling back to the
entry's own summary when extraction yields nothing truthy), summarize,
classify, stamp. -/
def process_entry (env : Env) (e : FeedEntry) : Article :=
  let content :=
    match fetch_article_content (env.fetchPage e.link) with
    | none => e.summary
    | some c => if c = "" then e.summary else c
  { title := e.title
    link := e.link
    pubDate := e.published
    summary := create_summary env.modelResp e.title content
    hookType := determine_hook_type e.title (some content)
    processed_at := env.now }

/-- One iteration of the entry loop over the `(seen_urls, all_articles)`
state: a link already seen is skipped, otherwise it is recorded and the
processed article appended. -/
def step (env : Env) (st : List String × List Article) (e : FeedEntry) : List String × List Article :=
  if e.link ∈ st.1 then st else (e.link :: st.1, st.2 ++ [process_entry env e])

/-- The feed loop: each feed either failed to parse (`none`, the `except`
branch continues with the next feed) or yields its entries, of which only the
first 15 are iterated. -/
def run_feeds_aux (env : Env) : List String × List Article → List (Option (List FeedEntry)) → List String × List Article
  | st, [] => st
  | st, none :: rest => run_feeds_aux env st rest
  | st, some es :: rest => run_feeds_aux env ((es.take 15).foldl (step env) st) rest

/-- The state after the whole feed loop, from the empty seen-set and article list. -/
def run_feeds (env : Env) (feeds : List (Option (List FeedEntry))) : List String × List Article :=
  run_feeds_aux env ([], []) feeds

/-- The comparator realizing `sort(key=pubDate, reverse=True)`: `a` may come
before `b` when `b`'s key is at most `a`'s. -/
def pubLe (a b : Article) : Bool := decide (b.pubDate ≤ a.pubDate)

/-- `fetch_and_process_feeds`: run the feed loop, sort all articles by
`pubDate` descending, truncate to `MAX_ARTICLES = 12`. -/
def fetch_and_process_feeds (env : Env) (feeds : List (Option (List FeedEntry))) : List Article :=
  ((run_feeds env feeds).2.mergeSort pubLe).take 12

/-- The entries actually iterated over during a run, in order: parse failures
skipped, each surviving feed truncated to its first 15 entries. -/
def consideredList : List (Option (List FeedEntry)) → List FeedEntry
  | [] => []
  | none :: rest => consideredList rest
  | some es :: rest => es.take 15 ++ consideredList rest

/-- First-seen-wins deduplication of entries by link, relative to an initial
seen-set: the reference semantics the entry loop is proved to realize. -/
def dedupFirst (seen : List String) : List FeedEntry → List FeedEntry
  | [] => []
  | e :: es =>
    if e.link ∈ seen then dedupFirst seen es
    else e :: dedupFirst (e.link :: seen) es

/-!  Persistence: `BostonNewsGenerator.save_data`. -/

/-- The `stats` block of the snapshot document. -/
structure Stats where
  totalArticles : Nat
  lastRefresh : String
  version : String

/-- The current-snapshot document `news-data.json`. -/
structure NewsData where
  lastUpdated : String
  articles : List Article
  stats : Stats

/-- The history document `news-history.json` as written. -/
structure History where
  lastUpdated : String
  totalArticles : Nat
  articles : List Article

/-- Outcome of `open("news-history.json") ; json.load`: a successful read of
the stored article list, a missing file (`FileNotFoundError`), or any other
failure (malformed JSON, permission error, ...), carrying its message. -/
inductive ReadResult where
  | ok (articles : List Article)
  | fileNotFound
  | otherError (msg : String)

/-- The history-loading step: only `FileNotFoundError` is caught (yielding the
empty history `{"articles": [], "totalArticles": 0}`); every other exception
propagates. -/
def load_history : ReadResult → Except String (List Article)
  | .ok arts => .ok arts
  | .fileNotFound => .ok []
  | .otherError e => .error e

/-- The snapshot document assembled by `save_data`. -/
def make_news_data (articles : List Article) (now : String) : NewsData :=
  { lastUpdated := now
    articles := articles
    stats := { totalArticles := articles.length, lastRefresh := now, version := "2.0" } }

/-- `new_articles`: the input articles whose link is not among the links
already present in the loaded history. -/
def new_unique (articles old : List Article) : List Article :=
  let existing_links := old.map (fun a => a.link)
  articles.filter (fun a => decide (a.link ∉ existing_links))

/-- The merged article sequence: new unique articles prepended to the loaded
history, truncated to the first 50. -/
def merge_history (articles old : List Article) : List Article :=
  (new_unique articles old ++ old).take 50

/-- The history document written by `save_data`. -/
def make_history (articles old : List Article) (now : String) : History :=
  let arts := merge_history articles old
  { lastUpdated := now, totalArticles := arts.length, articles := arts }

/-- `save_data`: the snapshot is written unconditionally (first), then the
history is loaded, merged and written; an uncaught read exception aborts the
history phase (and the run) after the snapshot write. -/
def save_data (articles : List Article) (r : ReadResult) (now : String) :
    NewsData × Except String History :=
  (make_news_data articles now,
   match load_history r with
   | .error e => .error e
   | .ok old => .ok (make_history articles old now))

/-!  Helper lemmas. -/

/-- A string is empty exactly when its character list is. -/
lemma string_eq_empty_iff (s : String) : s = "" ↔ s.toList = [] := by
  constructor
  · intro h; rw [h]; rfl
  · intro h; exact String.ext h

/-- The length of a slice is bounded by the slice width. -/
lemma pySlice_length_le (s : String) (n : Nat) : (pySlice s n).length ≤ n := by
  show (s.toList.take n).length ≤ n
  rw [List.length_take]
  exact min_le_left _ _

/-- A slice of a non-empty string by a positive width is non-empty. -/
lemma pySlice_ne_empty (s : String) (n : Nat) (hs : s ≠ "") (hn : n ≠ 0) :
    pySlice s n ≠ "" := by
  intro h
  rw [string_eq_empty_iff] at h
  rcases List.take_eq_nil_iff.mp h with h' | h'
  · exact hn h'
  · exact hs (string_eq_empty_iff s |>.mpr h')

/-- The link of a processed article is the entry's link. -/
lemma process_entry_link (env : Env) (e : FeedEntry) : (process_entry env e).link = e.link := rfl

/-- The entry loop appends exactly the processed first-seen entries, in order. -/
lemma foldl_step_snd (env : Env) (es : List FeedEntry) :
    ∀ (seen : List String) (arts : List Article),
      (es.foldl (step env) (seen, arts)).2 = arts ++ (dedupFirst seen es).map (process_entry env) := by
  induction es with
  | nil => intro seen arts; simp [dedupFirst]
  | cons e es ih =>
    intro seen arts
    by_cases h : e.link ∈ seen
    · simp [step, dedupFirst, h, ih]
    · simp [step, dedupFirst, h, ih]

/-- The feed loop is the entry loop over the considered entry sequence. -/
lemma run_feeds_aux_eq (env : Env) (feeds : List (Option (List FeedEntry))) :
    ∀ st, run_feeds_aux env st feeds = (consideredList feeds).foldl (step env) st := by
  induction feeds with
  | nil => intro st; rfl
  | cons of rest ih =>
    intro st
    cases of with
    | none => simp [run_feeds_aux, consideredList, ih]
    | some es => simp [run_feeds_aux, consideredList, ih, List.foldl_append]

/-- First-seen deduplication produces pairwise-distinct links, none of them
in the initial seen-set. -/
lemma dedupFirst_links_nodup (es : List FeedEntry) :
    ∀ seen, ((dedupFirst seen es).map (fun e => e.link)).Nodup ∧
      ∀ l ∈ (dedupFirst seen es).map (fun e => e.link), l ∉ seen := by
  induction es with
  | nil => intro seen; simp [dedupFirst]
  | cons e es ih =>
    intro seen
    by_cases h : e.link ∈ seen
    · simpa [dedupFirst, h] using ih seen
    · have ih2 := ih (e.link :: seen)
      constructor
      · rw [dedupFirst, if_neg h, List.map_cons, List.nodup_cons]
        refine ⟨fun hmem => ?_, ih2.1⟩
        exact (ih2.2 _ hmem) (List.mem_cons_self _ _)
      · intro l hl
        rw [dedupFirst, if_neg h, List.map_cons] at hl
        rcases List.mem_cons.mp hl with h' | h'
        · subst h'; exact h
        · intro hs
          exact (ih2.2 l h') (List.mem_cons_of_mem _ hs)

/-- Pre-truncating every feed to its first 15 entries leaves the considered
entry sequence unchanged. -/
lemma considered_take15 (feeds : List (Option (List FeedEntry))) :
    consideredList (feeds.map (Option.map (fun es => es.take 15))) = consideredList feeds := by
  induction feeds with
  | nil => rfl
  | cons of rest ih =>
    cases of with
    | none => simp [consideredList, ih]
    | some es => simp [consideredList, ih, List.take_take]

/-!  Claim theorems. -/

/-- A page on which the `.entry-content` selector matches (class used by the
source) but none of the selectors named by the spec's chain does. -/
def exSoup : Soup :=
  { select_one := fun s => if s = ".entry-content" then some "Scoop text" else none
    paragraphs := ["fallback para"] }

/-- A page whose only selector match (`.article-body`, present in both chains)
is an element with empty text, while paragraphs carry text. -/
def exSoup2 : Soup :=
  { select_one := fun s => if s = ".article-body" then some "" else none
    paragraphs := ["para text"] }

/-- C6 counterexample: the claim fails on the code in two ways. On `exSoup`
the source's chain (headed by `.entry-content`) matches and supplies the
excerpt while the chain the claim names (headed by a `content-body` class)
matches nothing and falls back to the paragraphs. On `exSoup2` a selector
matches an element whose text is empty, yet the code still falls back to the
paragraphs, against the claim's "only if none matches does it fall back". -/
theorem fetch_selector_chain_counterexample :
    (extract_text exSoup = some "Scoop text" ∧
     extract_text_spec exSoup = some "fallback para" ∧
     extract_text exSoup ≠ extract_text_spec exSoup) ∧
    (extract_text exSoup2 = some "para text" ∧
     extract_text_spec exSoup2 = none ∧
     extract_text exSoup2 ≠ extract_text_spec exSoup2) := by
  refine ⟨⟨by decide, by decide, by decide⟩, ⟨by decide, by decide, by decide⟩⟩

/-- C6 amended: `fetch_article_content` tries, in order, the selectors
`.entry-content`, `.article-body`, `.post-content`, `article`; the first
selector matching any element wins and its text supplies the excerpt; the
paragraph fallback (first 10 paragraphs, space-joined) is used exactly when no
selector matches or the winning element's text is empty. -/
theorem fetch_selector_chain_amended (soup : Soup) :
    (∀ t, soup.select_one ".entry-content" = some t → t ≠ "" → raw_text soup = t) ∧
    (∀ t, soup.select_one ".entry-content" = none →
      soup.select_one ".article-body" = some t → t ≠ "" → raw_text soup = t) ∧
    (∀ t, soup.select_one ".entry-content" = none → soup.select_one ".article-body" = none →
      soup.select_one ".post-content" = some t → t ≠ "" → raw_text soup = t) ∧
    (∀ t, soup.select_one ".entry-content" = none → soup.select_one ".article-body" = none →
      soup.select_one ".post-content" = none →
      soup.select_one "article" = some t → t ≠ "" → raw_text soup = t) ∧
    ((∀ s ∈ selectors, soup.select_one s = none) → raw_text soup = para_fallback soup) ∧
    (find_content selectors soup = some "" → raw_text soup = para_fallback soup) := by
  refine ⟨?_, ?_, ?_, ?_, ?_, ?_⟩
  · intro t h hne; simp [raw_text, selectors, find_content, h, hne]
  · intro t h1 h hne; simp [raw_text, selectors, find_content, h1, h, hne]
  · intro t h1 h2 h hne; simp [raw_text, selectors, find_content, h1, h2, h, hne]
  · intro t h1 h2 h3 h hne; simp [raw_text, selectors, find_content, h1, h2, h3, h, hne]
  · intro h
    have h1 := h ".entry-content" (by simp [selectors])
    have h2 := h ".article-body" (by simp [selectors])
    have h3 := h ".post-content" (by simp [selectors])
    have h4 := h "article" (by simp [selectors])
    simp [raw_text, selectors, find_content, h1, h2, h3, h4]
  · intro h; simp [raw_text, h]

/-- C6 witness: the amended priority rule applied to the concrete page `exSoup`. -/
theorem fetch_selector_chain_witness : raw_text exSoup = "Scoop text" :=
  (fetch_selector_chain_amended exSoup).1 "Scoop text" rfl (by decide)

/-- C8: `fetch_article_content` returns `none` exactly when nothing truthy was
extracted (any fetch or parse failure included), and otherwise a non-empty
excerpt of at most 4000 characters, whichever path produced the text. -/
theorem fetch_content_bounded (o : Option Soup) :
    (fetch_article_content o = none ↔
      o = none ∨ ∃ soup, o = some soup ∧ raw_text soup = "") ∧
    (∀ s, fetch_article_content o = some s → s ≠ "" ∧ s.length ≤ 4000) := by
  cases o with
  | none => simp [fetch_article_content]
  | some soup =>
    by_cases h : raw_text soup = ""
    · simp [fetch_article_content, extract_text, h]
    · constructor
      · simp [fetch_article_content, extract_text, h]
      · intro s hs
        simp only [fetch_article_content, extract_text, if_neg h, Option.some.injEq] at hs
        subst hs
        exact ⟨pySlice_ne_empty _ _ h (by decide), pySlice_length_le _ _⟩

/-- A page where no selector matches and a single paragraph supplies the text. -/
def fallbackSoup : Soup :=
  { select_one := fun _ => none
    paragraphs := ["hello"] }

/-- C8 witness: the bound applied to the concrete page `fallbackSoup`. -/
theorem fetch_content_bounded_witness : "hello" ≠ "" ∧ ("hello" : String).length ≤ 4000 :=
  (fetch_content_bounded (some fallbackSoup)).2 "hello" (by decide)

/-- C1: `create_summary` always returns exactly 3 bullets — for every model
response text and also when the call raises — and when parsing yields 3 or
more bullets it returns precisely the first 3, in order. -/
theorem summary_three_bullets (modelResp : String → Option String) (title content : String) :
    (create_summary modelResp title content).length = 3 ∧
    (∀ t, modelResp (build_prompt title content) = some t →
      3 ≤ (parse_bullets (pyStrip t)).length →
      create_summary modelResp title content = (parse_bullets (pyStrip t)).take 3) := by
  constructor
  · unfold create_summary
    cases h : modelResp (build_prompt title content) with
    | none => rfl
    | some t =>
      by_cases h3 : 3 ≤ (parse_bullets (pyStrip t)).length
      · simp only [if_pos h3, List.length_take]
        omega
      · simp [h3, parse_fallback]
  · intro t ht h3
    unfold create_summary
    rw [ht]
    simp [h3]

/-- C1 witness: a four-bullet model response is cut to its first three bullets. -/
theorem summary_three_bullets_witness :
    create_summary (fun _ => some "• A\n- B\n* C\n- D") "T" "body" =
      (parse_bullets (pyStrip "• A\n- B\n* C\n- D")).take 3 :=
  (summary_three_bullets (fun _ => some "• A\n- B\n* C\n- D") "T" "body").2
    "• A\n- B\n* C\n- D" rfl (by decide)

/-- C2: every run returns at most `MAX_ARTICLES = 12` articles, sorted by the
`pubDate` string in descending lexicographic order. -/
theorem pipeline_sorted_capped (env : Env) (feeds : List (Option (List FeedEntry))) :
    (fetch_and_process_feeds env feeds).length ≤ 12 ∧
    List.Sorted (fun a b : Article => b.pubDate ≤ a.pubDate) (fetch_and_process_feeds env feeds) := by
  constructor
  · unfold fetch_and_process_feeds
    rw [List.length_take]
    exact min_le_left _ _
  · unfold fetch_and_process_feeds
    apply List.Pairwise.sublist (List.take_sublist _ _)
    have htrans : ∀ a b c : Article, pubLe a b = true → pubLe b c = true → pubLe a c = true := by
      intro a b c hab hbc
      have h1 := decide_eq_true_iff.mp hab
      have h2 := decide_eq_true_iff.mp hbc
      exact decide_eq_true (le_trans h2 h1)
    have htotal : ∀ a b : Article, (pubLe a b || pubLe b a) = true := by
      intro a b
      rcases le_total b.pubDate a.pubDate with h | h
      · simp [pubLe, h]
      · simp [pubLe, h]
    have hs := List.sorted_mergeSort htrans htotal (run_feeds env feeds).2
    exact hs.imp (fun h => decide_eq_true_iff.mp h)

/-- C3: only the first 15 entries of each feed matter (pre-truncating every
feed to 15 entries leaves the run unchanged), the articles of a run are
exactly the processed first-seen-per-link entries in order, and the links in
the run's output are pairwise distinct. -/
theorem pipeline_dedup_first_seen (env : Env) (feeds : List (Option (List FeedEntry))) :
    run_feeds env (feeds.map (Option.map (fun es => es.take 15))) = run_feeds env feeds ∧
    (run_feeds env feeds).2 = (dedupFirst [] (consideredList feeds)).map (process_entry env) ∧
    ((fetch_and_process_feeds env feeds).map (fun a => a.link)).Nodup := by
  have h2 : (run_feeds env feeds).2 =
      (dedupFirst [] (consideredList feeds)).map (process_entry env) := by
    unfold run_feeds
    rw [run_feeds_aux_eq]
    simpa using foldl_step_snd env (consideredList feeds) [] []
  refine ⟨?_, h2, ?_⟩
  · unfold run_feeds
    rw [run_feeds_aux_eq, run_feeds_aux_eq, considered_take15]
  · have hn : ((run_feeds env feeds).2.map (fun a => a.link)).Nodup := by
      rw [h2, List.map_map]
      have hcomp : ((fun a : Article => a.link) ∘ process_entry env) = fun e : FeedEntry => e.link := by
        funext e; rfl
      rw [hcomp]
      exact (dedupFirst_links_nodup (consideredList feeds) []).1
    unfold fetch_and_process_feeds
    rw [List.map_take]
    apply (List.take_sublist _ _).nodup
    have hperm := (List.mergeSort_perm (run_feeds env feeds).2 pubLe).map (fun a : Article => a.link)
    exact hperm.nodup_iff.mpr hn

/-- C7: the classifier evaluates its keyword rules in strict priority order —
SPORTS, TRANSIT, POLITICS, WEATHER against the title, then LOCAL_IMPACT
against the content, else NEWS — the first matching rule winning; a title
holding both a POLITICS and a WEATHER keyword classifies as POLITICS. -/
theorem classifier_priority_order :
    (∀ t c, sportsWords.any (fun w => pyIn w (pyLower t)) = true →
      determine_hook_type t c = "SPORTS") ∧
    (∀ t c, sportsWords.any (fun w => pyIn w (pyLower t)) = false →
      transitWords.any (fun w => pyIn w (pyLower t)) = true →
      determine_hook_type t c = "TRANSIT") ∧
    (∀ t c, sportsWords.any (fun w => pyIn w (pyLower t)) = false →
      transitWords.any (fun w => pyIn w (pyLower t)) = false →
      politicsWords.any (fun w => pyIn w (pyLower t)) = true →
      determine_hook_type t c = "POLITICS") ∧
    (∀ t c, sportsWords.any (fun w => pyIn w (pyLower t)) = false →
      transitWords.any (fun w => pyIn w (pyLower t)) = false →
      politicsWords.any (fun w => pyIn w (pyLower t)) = false →
      weatherWords.any (fun w => pyIn w (pyLower t)) = true →
      determine_hook_type t c = "WEATHER") ∧
    (∀ t c, sportsWords.any (fun w => pyIn w (pyLower t)) = false →
      transitWords.any (fun w => pyIn w (pyLower t)) = false →
      politicsWords.any (fun w => pyIn w (pyLower t)) = false →
      weatherWords.any (fun w => pyIn w (pyLower t)) = false →
      localWords.any (fun w => pyIn w (pyContentLower c)) = true →
      determine_hook_type t c = "LOCAL_IMPACT") ∧
    (∀ t c, sportsWords.any (fun w => pyIn w (pyLower t)) = false →
      transitWords.any (fun w => pyIn w (pyLower t)) = false →
      politicsWords.any (fun w => pyIn w (pyLower t)) = false →
      weatherWords.any (fun w => pyIn w (pyLower t)) = false →
      localWords.any (fun w => pyIn w (pyContentLower c)) = false →
      determine_hook_type t c = "NEWS") ∧
    (politicsWords.any (fun w => pyIn w (pyLower "Mayor announces storm shelters")) = true ∧
     weatherWords.any (fun w => pyIn w (pyLower "Mayor announces storm shelters")) = true ∧
     determine_hook_type "Mayor announces storm shelters" (some "Shelters open across Boston.") =
       "POLITICS") := by
  refine ⟨?_, ?_, ?_, ?_, ?_, ?_, by decide, by decide, by decide⟩
  · intro t c h; simp [determine_hook_type, h]
  · intro t c h1 h; simp [determine_hook_type, h1, h]
  · intro t c h1 h2 h; simp [determine_hook_type, h1, h2, h]
  · intro t c h1 h2 h3 h; simp [determine_hook_type, h1, h2, h3, h]
  · intro t c h1 h2 h3 h4 h; simp [determine_hook_type, h1, h2, h3, h4, h]
  · intro t c h1 h2 h3 h4 h5; simp [determine_hook_type, h1, h2, h3, h4, h5]

/-- C7 witness: the SPORTS rule applied to a concrete title. -/
theorem classifier_priority_order_witness :
    determine_hook_type "Patriots beat Jets" none = "SPORTS" :=
  classifier_priority_order.1 "Patriots beat Jets" none (by decide)

/-- C10: the classifier is total on empty or absent content — `none` and `""`
classify identically, the LOCAL_IMPACT label is then unreachable, and with no
title keyword matching the result defaults to NEWS. -/
theorem classifier_empty_content (title : String) :
    determine_hook_type title none = determine_hook_type title (some "") ∧
    determine_hook_type title none ≠ "LOCAL_IMPACT" ∧
    (sportsWords.any (fun w => pyIn w (pyLower title)) = false →
     transitWords.any (fun w => pyIn w (pyLower title)) = false →
     politicsWords.any (fun w => pyIn w (pyLower title)) = false →
     weatherWords.any (fun w => pyIn w (pyLower title)) = false →
     determine_hook_type title none = "NEWS") := by
  have hlocal : localWords.any (fun w => pyIn w (pyContentLower none)) = false := by decide
  refine ⟨rfl, ?_, ?_⟩
  · unfold determine_hook_type
    simp only [hlocal, Bool.false_eq_true, if_false]
    split_ifs <;> decide
  · intro h1 h2 h3 h4
    simp [determine_hook_type, h1, h2, h3, h4, hlocal]

/-- C10 witness: a keyword-free title with absent content classifies as NEWS. -/
theorem classifier_empty_content_witness : determine_hook_type "quiet day" none = "NEWS" :=
  (classifier_empty_content "quiet day").2.2 (by decide) (by decide) (by decide) (by decide)

/-- C4: the merged history is the new unique-link articles prepended to the
prior history and truncated to 50; it never exceeds 50 entries; with
pairwise-distinct input links and pairwise-distinct prior links no two merged
entries share a link; and the document is produced (timestamp refreshed) even
when nothing new was merged. -/
theorem history_merge_bounded (articles old : List Article) (now : String) :
    (make_history articles old now).articles = (new_unique articles old ++ old).take 50 ∧
    (make_history articles old now).articles.length ≤ 50 ∧
    ((articles.map (fun a => a.link)).Nodup → (old.map (fun a => a.link)).Nodup →
      ((make_history articles old now).articles.map (fun a => a.link)).Nodup) ∧
    (new_unique articles old = [] →
      (make_history articles old now).articles = old.take 50) ∧
    (make_history articles old now).lastUpdated = now := by
  refine ⟨rfl, ?_, ?_, ?_, rfl⟩
  · show ((new_unique articles old ++ old).take 50).length ≤ 50
    rw [List.length_take]
    exact min_le_left _ _
  · intro h1 h2
    have hsub : (new_unique articles old).Sublist articles := List.filter_sublist _
    have hnew : ((new_unique articles old).map (fun a => a.link)).Nodup :=
      (hsub.map _).nodup h1
    have hdisj : ((new_unique articles old).map (fun a => a.link)).Disjoint
        (old.map (fun a => a.link)) := by
      intro x hx hxold
      rcases List.mem_map.mp hx with ⟨a, ha, rfl⟩
      have := (List.mem_filter.mp ha).2
      exact (decide_eq_true_iff.mp this) hxold
    have hcat : ((new_unique articles old ++ old).map (fun a => a.link)).Nodup := by
      rw [List.map_append]
      exact List.nodup_append.mpr ⟨hnew, h2, hdisj⟩
    show (((new_unique articles old ++ old).take 50).map (fun a => a.link)).Nodup
    rw [List.map_take]
    exact (List.take_sublist _ _).nodup hcat
  · intro h
    show (new_unique articles old ++ old).take 50 = old.take 50
    rw [h]
    rfl

/-- A concrete article record. -/
def artA : Article :=
  { title := "A", link := "https://ex.com/a", pubDate := "2024-01-02"
    summary := ["a1", "a2", "a3"], hookType := "NEWS", processed_at := "t1" }

/-- A second concrete article record with a distinct link. -/
def artB : Article :=
  { title := "B", link := "https://ex.com/b", pubDate := "2024-01-01"
    summary := ["b1", "b2", "b3"], hookType := "NEWS", processed_at := "t0" }

/-- C4 witness: the no-duplicate-links conclusion on a concrete merge. -/
theorem history_merge_bounded_witness :
    ((make_history [artA] [artB] "now").articles.map (fun a => a.link)).Nodup :=
  (history_merge_bounded [artA] [artB] "now").2.2.1 (by decide) (by decide)

/-- C5 counterexample: a history file that is present but malformed raises out
of the history phase of `save_data` — the read failure is fatal, not recovered
as an empty history. -/
theorem history_read_failure_counterexample :
    (save_data [] (ReadResult.otherError "JSONDecodeError: Expecting value")
        "2024-01-01T00:00:00+00:00").2 =
      Except.error "JSONDecodeError: Expecting value" := rfl

/-- C5 amended: only absence of the history file (`FileNotFoundError`) is
recovered by starting from an empty history; any other read failure (present
but unreadable or malformed) propagates out of the history merge, though the
snapshot has already been written by then. -/
theorem history_read_failure_amended :
    (∀ articles now, (save_data articles ReadResult.fileNotFound now).2 =
      Except.ok (make_history articles [] now)) ∧
    (∀ articles now old, (save_data articles (ReadResult.ok old) now).2 =
      Except.ok (make_history articles old now)) ∧
    (∀ articles now e, (save_data articles (ReadResult.otherError e) now).2 =
      Except.error e) ∧
    (∀ articles now r, (save_data articles r now).1 = make_news_data articles now) :=
  ⟨fun _ _ => rfl, fun _ _ _ => rfl, fun _ _ _ => rfl, fun _ _ _ => rfl⟩

/-- C9: in both written documents the stated total equals the length of the
article array: the snapshot's `stats.totalArticles` counts the input articles
and the history's `totalArticles` counts the capped merged sequence. -/
theorem saved_totals_consistent (articles old : List Article) (now : String) :
    (make_news_data articles now).stats.totalArticles =
      (make_news_data articles now).articles.length ∧
    (make_history articles old now).totalArticles =
      (make_history articles old now).articles.length :=
  ⟨rfl, rfl⟩

end SpeedRead
